import Mathlib

/-!
Verification of the apigpio repository's algorithmic core against its
specification.

Embedded source:
* `src/apigpio/utils.py` — `tick_diff` and the `debounce` decorator
  (the `_decorated` class with `__init__`, `__call__`, `__get__`).
* `src/samples/gpio_dht11.py` — the `DHT11` edge-driven frame decoder
  (`either_edge_callback`, `_edge_RISE`, `_edge_FALL`, `_edge_EITHER`,
  `__anext__`) and the `DHT11Result` record.

Python integers are unbounded, so ticks, diffs and thresholds are `Int`
and the always-non-negative accumulators are `Nat`.  Logging calls and
the watchdog side effects (`loop.create_task(...)`, `set_watchdog`) do
not touch the decoding state and are omitted.
-/

set_option maxRecDepth 4000

/-! ### TickArithmetic: `src/apigpio/utils.py` -/

/-- `tick_diff(t1, t2)` from `utils.py` lines 62-75:
`diff = t2 - t1; if diff < 0: diff += (1 << 32); return diff`
(`1 << 32 = 2 ^ 32`). -/
def tick_diff (t1 t2 : Int) : Int :=
  let diff := t2 - t1
  if diff < 0 then diff + 2 ^ 32 else diff

/-- `max_tick = 0xFFFFFFFF` from `debounce` (utils.py line 26). -/
def max_tick : Int := 0xFFFFFFFF

/-- State of one `_decorated` object (utils.py lines 28-57): the stored
`self.last` and `self.is_method` flag.  The wrapped function `self._fn`
carries no state of its own and is represented by the Bool returned by
`debCall` (`true` iff `_fn` was invoked). -/
structure Decorated where
  last : Int
  is_method : Bool

/-- `_decorated.__init__` (utils.py lines 30-33): `self.last = 0`,
`self.is_method = False`. -/
def decoratedInit : Decorated :=
  { last := 0, is_method := false }

/-- The `delay` computation of `_decorated.__call__` (utils.py lines 41-44):
`if self.last > tick: delay = max_tick - self.last + tick
 else: delay = tick - self.last`. -/
def debDelay (last tick : Int) : Int :=
  if last > tick then max_tick - last + tick else tick - last

/-- `_decorated.__call__` (utils.py lines 35-51) with the tick already
extracted from the positional arguments (`args[3]` when `is_method`,
`args[2]` otherwise).  `threshold` is the decorator's threshold after
the `threshold *= 1000` ms-to-µs conversion.  Returns the new state and
whether the wrapped handler was invoked; the `logger.debug` calls are
side-effect free. -/
def debCall (threshold : Int) (st : Decorated) (tick : Int) :
    Decorated × Bool :=
  if debDelay st.last tick > threshold then
    ({ st with last := tick }, true)
  else
    (st, false)

/-- The `threshold *= 1000` conversion at utils.py line 25: the decorator
argument is in milliseconds, the comparison threshold in microseconds. -/
def debounce_threshold (ms : Int) : Int := ms * 1000

/-- A call delivered through a bound method, per `_decorated.__get__`
(utils.py lines 53-57).  The decorator runs when the class body is
evaluated, so a decorated method owns exactly ONE `_decorated` object,
stored as a class attribute; `__get__` sets `self.is_method = True` on
that shared object and returns `functools.partial(self, instance)`,
binding the same object for every instance.  The `instance` argument
only occupies `args[0]` (shifting the tick to `args[3]`) and is
otherwise unused, so calls through any two instances read and mutate
one and the same `Decorated` state. -/
def callViaInstance (threshold : Int) (shared : Decorated)
    (inst : Nat) (tick : Int) : Decorated × Bool :=
  debCall threshold { shared with is_method := true } tick

/-! ### Theorems about TickArithmetic -/

/-- Claim C8 counterexample: the `__call__` wraparound branch uses
`max_tick = 0xFFFFFFFF` where `tick_diff` adds `1 << 32`, so for stored
tick 10 and incoming tick 5 the computed delay (4294967290) differs
from `tick_diff 10 5` (4294967291); and a wrapped-around call with true
modular elapsed 100001 against threshold 100000 is suppressed even
though its true elapsed exceeds the threshold. -/
theorem C8_offbyone_counterexample :
    debDelay 10 5 ≠ tick_diff 10 5 ∧
    tick_diff (2 ^ 32 - 50) 99951 = 100001 ∧
    (100000 : Int) < 100001 ∧
    (debCall 100000 { last := 2 ^ 32 - 50, is_method := false } 99951).2
      = false := by
  decide

/-- Claim C8 (amended): for stored and incoming ticks in `[0, 2^32)`,
the computed delay equals `tick_diff last tick` in the non-wrapping
case, but equals `tick_diff last tick - 1` in the wrapping case
(`tick < last`); consequently a wrapped-around call is accepted iff its
true modular elapsed time strictly exceeds `threshold + 1`, not
`threshold`. -/
theorem C8_wrap_delay_amended (last tick : Int) (m : Bool)
    (h1 : 0 ≤ last) (h2 : last < 2 ^ 32)
    (h3 : 0 ≤ tick) (h4 : tick < 2 ^ 32) :
    (last ≤ tick → debDelay last tick = tick_diff last tick) ∧
    (tick < last → debDelay last tick = tick_diff last tick - 1) ∧
    (∀ T : Int, tick < last →
      ((debCall T { last := last, is_method := m } tick).2 = true ↔
        T + 1 < tick_diff last tick)) := by
  have h32 : (2 : Int) ^ 32 = 4294967296 := by norm_num
  refine ⟨?_, ?_, ?_⟩
  · intro hle
    simp only [debDelay, tick_diff]
    rw [if_neg (by omega), if_neg (by omega)]
  · intro hlt
    simp only [debDelay, tick_diff, max_tick, h32]
    rw [if_pos (by omega), if_pos (by omega)]
    omega
  · intro T hlt
    simp only [debCall, debDelay, tick_diff, max_tick, h32]
    rw [if_pos (by omega : last > tick), if_pos (by omega : tick - last < 0)]
    by_cases hc : (4294967295 : Int) - last + tick > T
    · rw [if_pos hc]
      exact ⟨fun _ => by omega, fun _ => rfl⟩
    · rw [if_neg hc]
      constructor
      · intro habs; simp at habs
      · intro hgt; exfalso; omega

/-- Claim C8 witness: the amended theorem instantiated at last = 10,
tick = 5. -/
theorem C8_wrap_delay_amended_witness :
    (0 ≤ (10 : Int)) ∧ ((10 : Int) < 2 ^ 32) ∧
    (0 ≤ (5 : Int)) ∧ ((5 : Int) < 2 ^ 32) ∧
    (((10 : Int) ≤ 5 → debDelay 10 5 = tick_diff 10 5) ∧
     ((5 : Int) < 10 → debDelay 10 5 = tick_diff 10 5 - 1) ∧
     (∀ T : Int, (5 : Int) < 10 →
       ((debCall T { last := 10, is_method := false } 5).2 = true ↔
         T + 1 < tick_diff 10 5))) :=
  ⟨by decide, by decide, by decide, by decide,
   C8_wrap_delay_amended 10 5 false (by decide) (by decide)
     (by decide) (by decide)⟩

/-- Claim C9: in the non-wrapping case (`last ≤ tick`) the handler is
invoked and `last` updated to the incoming tick iff the elapsed time
strictly exceeds the threshold, otherwise the state is unchanged; and
with a state whose `last = t0`, a call at `t0 + T - 1` is suppressed
while a call at `t0 + T + 1` is accepted and updates `last`
(threshold `T` in microseconds, `T ≥ 1`). -/
theorem C9_nonwrap_accept_iff (T : Int) (st : Decorated)
    (tick t0 : Int) (m : Bool)
    (h : st.last ≤ tick) (hT : 1 ≤ T) :
    ((debCall T st tick).2 = true ↔ T < tick - st.last) ∧
    (T < tick - st.last →
      (debCall T st tick).1 = { st with last := tick }) ∧
    (tick - st.last ≤ T → (debCall T st tick).1 = st) ∧
    ((debCall T { last := t0, is_method := m } (t0 + T - 1)).2 = false) ∧
    ((debCall T { last := t0, is_method := m } (t0 + T + 1)).2 = true) ∧
    ((debCall T { last := t0, is_method := m } (t0 + T + 1)).1.last
      = t0 + T + 1) := by
  have hnw : ¬ (st.last > tick) := by omega
  refine ⟨?_, ?_, ?_, ?_, ?_, ?_⟩
  · simp only [debCall, debDelay, if_neg hnw]
    constructor
    · intro hacc
      by_cases hc : tick - st.last > T
      · omega
      · rw [if_neg hc] at hacc; simp at hacc
    · intro hgt; rw [if_pos hgt]
  · intro hgt
    simp only [debCall, debDelay, if_neg hnw, if_pos hgt]
  · intro hle
    simp only [debCall, debDelay, if_neg hnw, if_neg (by omega : ¬ tick - st.last > T)]
  · simp only [debCall, debDelay]
    rw [if_neg (by omega : ¬ (t0 : Int) > t0 + T - 1),
        if_neg (by omega : ¬ t0 + T - 1 - t0 > T)]
  · simp only [debCall, debDelay]
    rw [if_neg (by omega : ¬ (t0 : Int) > t0 + T + 1),
        if_pos (by omega : t0 + T + 1 - t0 > T)]
  · simp only [debCall, debDelay]
    rw [if_neg (by omega : ¬ (t0 : Int) > t0 + T + 1),
        if_pos (by omega : t0 + T + 1 - t0 > T)]

/-- Claim C9 witness: instantiated at threshold 100000 µs, a state with
last = 40, incoming tick 140050, and t0 = 7. -/
theorem C9_nonwrap_accept_iff_witness :
    (({ last := 40, is_method := true } : Decorated).last ≤ 140050) ∧
    ((1 : Int) ≤ 100000) ∧
    (((debCall 100000 { last := 40, is_method := true } 140050).2 = true ↔
       (100000 : Int) < 140050 - ({ last := 40, is_method := true } : Decorated).last) ∧
     ((100000 : Int) < 140050 - ({ last := 40, is_method := true } : Decorated).last →
       (debCall 100000 { last := 40, is_method := true } 140050).1
         = { ({ last := 40, is_method := true } : Decorated) with last := 140050 }) ∧
     ((140050 : Int) - ({ last := 40, is_method := true } : Decorated).last ≤ 100000 →
       (debCall 100000 { last := 40, is_method := true } 140050).1
         = { last := 40, is_method := true }) ∧
     ((debCall 100000 { last := 7, is_method := false } (7 + 100000 - 1)).2 = false) ∧
     ((debCall 100000 { last := 7, is_method := false } (7 + 100000 + 1)).2 = true) ∧
     ((debCall 100000 { last := 7, is_method := false } (7 + 100000 + 1)).1.last
       = 7 + 100000 + 1)) :=
  ⟨by decide, by decide,
   C9_nonwrap_accept_iff 100000 { last := 40, is_method := true }
     140050 7 false (by decide) (by decide)⟩

/-- Claim C10: `__init__` stores `last = 0`, so the very first call to a
freshly constructed debounce filter with any tick `≤` the microsecond
threshold is suppressed (handler not invoked), even though no call was
ever accepted before. -/
theorem C10_first_event_suppressed (T tick : Int) (m : Bool)
    (h0 : 0 ≤ tick) (h1 : tick ≤ T) :
    decoratedInit.last = 0 ∧
    (debCall T { last := 0, is_method := m } tick).2 = false := by
  refine ⟨rfl, ?_⟩
  simp only [debCall, debDelay]
  rw [if_neg (by omega : ¬ (0 : Int) > tick),
      if_neg (by omega : ¬ tick - 0 > T)]

/-- Claim C10 witness: a first event at tick 50 against the default
100000 µs threshold is suppressed. -/
theorem C10_first_event_suppressed_witness :
    (0 ≤ (50 : Int)) ∧ ((50 : Int) ≤ 100000) ∧
    (decoratedInit.last = 0 ∧
     (debCall 100000 { last := 0, is_method := false } 50).2 = false) :=
  ⟨by decide, by decide,
   C10_first_event_suppressed 100000 50 false (by decide) (by decide)⟩

/-- Claim C4 counterexample: with the default 100 ms threshold, an
accepted call through instance 0 at tick 100001 changes the stored
last-accepted tick (from 0 to 100001) that instance 1's decisions use,
and instance 1's immediately following call at tick 100002 is
suppressed — although instance 1 never had a call accepted, so under
independent per-instance state it would have been accepted. -/
theorem C4_shared_state_counterexample :
    (callViaInstance (debounce_threshold 100)
        { last := 0, is_method := false } 0 100001).2 = true ∧
    ((callViaInstance (debounce_threshold 100)
        { last := 0, is_method := false } 0 100001).1).last ≠ 0 ∧
    (callViaInstance (debounce_threshold 100)
        ((callViaInstance (debounce_threshold 100)
            { last := 0, is_method := false } 0 100001).1)
        1 100002).2 = false ∧
    (callViaInstance (debounce_threshold 100)
        { last := 0, is_method := false } 1 100002).2 = true := by
  decide

/-- Claim C4 (amended): all instances of the class share the single
class-attribute `_decorated` object, so an accepted call through one
instance overwrites the stored last-accepted tick with its own tick,
and every other instance's subsequent accept/suppress decision is taken
against that updated shared value. -/
theorem C4_shared_state_amended (T : Int) (st : Decorated)
    (a b : Nat) (tick : Int)
    (hacc : (callViaInstance T st a tick).2 = true) :
    ((callViaInstance T st a tick).1).last = tick ∧
    (∀ tick2, callViaInstance T ((callViaInstance T st a tick).1) b tick2
      = debCall T { last := tick, is_method := true } tick2) := by
  simp only [callViaInstance, debCall] at hacc ⊢
  by_cases hc : debDelay st.last tick > T
  · rw [if_pos hc]
    exact ⟨rfl, fun tick2 => rfl⟩
  · rw [if_neg hc] at hacc
    simp at hacc

/-- Claim C4 witness: the amended theorem instantiated at the
counterexample's first accepted call. -/
theorem C4_shared_state_amended_witness :
    ((callViaInstance 100000 { last := 0, is_method := false } 0 100001).2
       = true) ∧
    (((callViaInstance 100000 { last := 0, is_method := false } 0 100001).1).last
       = 100001 ∧
     (∀ tick2, callViaInstance 100000
        ((callViaInstance 100000 { last := 0, is_method := false } 0 100001).1)
        1 tick2
       = debCall 100000 { last := 100001, is_method := true } tick2)) :=
  ⟨by decide,
   C4_shared_state_amended 100000 { last := 0, is_method := false }
     0 1 100001 (by decide)⟩

/-! ### FrameDecoder: `src/samples/gpio_dht11.py` -/

/-- Error codes from `DHT11Result` (gpio_dht11.py lines 8-10). -/
def ERR_NO_ERROR : Nat := 0

/-- `ERR_MISSING_DATA = 1` (gpio_dht11.py line 9).  Defined by
`DHT11Result` but never assigned to `self._error` anywhere in the
file. -/
def ERR_MISSING_DATA : Nat := 1

/-- `ERR_CRC = 2` (gpio_dht11.py line 10). -/
def ERR_CRC : Nat := 2

/-- The mutable fields of one `DHT11` object touched by the edge
handlers: `self.temperature`, `self.humidity`, `self._high_tick`,
`self._bit`, `self.checksum`, `self._error`.  `bit` is `Int` because
the frame reset stores the sentinel `-2`. -/
structure DHT11State where
  temperature : Nat
  humidity : Nat
  high_tick : Int
  bit : Int
  checksum : Nat
  error : Nat
deriving DecidableEq

/-- `DHT11.__init__` (gpio_dht11.py lines 39-46):
`temperature = humidity = 0`, `_high_tick = 0`, `_bit = 40`,
`_error = ERR_NO_ERROR`.  Python leaves `self.checksum` unassigned
until a frame reset (or a `diff >= 200` rise) first writes it; the `0`
stored here is a placeholder that is never read before such a write,
because `checksum` is only read in the `32 <= _bit < 40` branch and
`_bit` stays `>= 40` until a frame reset (which sets `checksum = 0`). -/
def initState : DHT11State :=
  { temperature := 0, humidity := 0, high_tick := 0, bit := 40,
    checksum := 0, error := ERR_NO_ERROR }

/-- The body of `_edge_RISE` (gpio_dht11.py lines 91-116) after the two
`diff` tests: the `if/elif` dispatch on `self._bit`, each branch
followed by the trailing unconditional `self._bit += 1` — which the
checksum-mismatch path skips via its early `return` (line 103).  The
`loop.create_task(self._pi.set_watchdog(...))` call at line 98 only
touches the watchdog, not the decode state. -/
def riseDispatch (s : DHT11State) (val : Nat) : DHT11State :=
  if 40 ≤ s.bit then
    -- `self._bit = 40` (line 92) then `self._bit += 1` (line 116)
    { s with bit := 40 + 1 }
  else if 32 ≤ s.bit then
    let c := (s.checksum <<< 1) + val
    if s.bit = 39 then
      if ¬ ((s.humidity + s.temperature) &&& 255 = c) then
        -- `self._error = DHT11Result.ERR_CRC; return` (lines 102-103)
        { s with checksum := c, error := ERR_CRC }
      else
        { s with checksum := c, bit := s.bit + 1 }
    else
      { s with checksum := c, bit := s.bit + 1 }
  else if 16 ≤ s.bit ∧ s.bit < 24 then
    { s with temperature := (s.temperature <<< 1) + val,
             error := ERR_NO_ERROR, bit := s.bit + 1 }
  else if 0 ≤ s.bit ∧ s.bit < 8 then
    { s with humidity := (s.humidity <<< 1) + val,
             error := ERR_NO_ERROR, bit := s.bit + 1 }
  else
    { s with bit := s.bit + 1 }

/-- `DHT11._edge_RISE` (gpio_dht11.py lines 81-116):
`val = 1 if diff >= 50 else 0`; `if diff >= 200: self.checksum = 256`
(force bad checksum); then the bit dispatch.  The `tick` parameter of
the Python method is never read. -/
def edgeRISE (s : DHT11State) (tick diff : Int) : DHT11State :=
  riseDispatch (if 200 ≤ diff then { s with checksum := 256 } else s)
    (if 50 ≤ diff then 1 else 0)

/-- `DHT11._edge_FALL` (gpio_dht11.py lines 118-128):
`self._high_tick = tick`; `if diff <= 250000: return`; otherwise the
frame reset `_bit = -2`, `checksum = temperature = humidity = 0`. -/
def edgeFALL (s : DHT11State) (tick diff : Int) : DHT11State :=
  let s1 := { s with high_tick := tick }
  if diff ≤ 250000 then s1
  else { s1 with bit := -2, checksum := 0, temperature := 0, humidity := 0 }

/-- `DHT11._edge_EITHER` (gpio_dht11.py lines 130-134): only schedules
`set_watchdog`; the decode state is untouched. -/
def edgeEITHER (s : DHT11State) (tick diff : Int) : DHT11State := s

/-- The three keys of the `level_handlers` dict in
`either_edge_callback` (gpio_dht11.py lines 72-76). -/
inductive EdgeLevel where
  | rise
  | fall
  | either

/-- `DHT11.either_edge_callback` (gpio_dht11.py lines 67-79): compute
`diff = apigpio.tick_diff(self._high_tick, tick)` and dispatch to the
handler selected by the `level_handlers` dict. -/
def eitherEdgeCallback (s : DHT11State) (level : EdgeLevel) (tick : Int) :
    DHT11State :=
  let diff := tick_diff s.high_tick tick
  match level with
  | .rise => edgeRISE s tick diff
  | .fall => edgeFALL s tick diff
  | .either => edgeEITHER s tick diff

/-- A stream of edge events `(level, tick)` folded through
`either_edge_callback`, in arrival order. -/
def processEvents (s : DHT11State) (evs : List (EdgeLevel × Int)) :
    DHT11State :=
  evs.foldl (fun st e => eitherEdgeCallback st e.1 e.2) s

/-- A sequence of rising edges with the given diffs, folded through
`_edge_RISE` (which never reads its `tick` argument, so `0` is passed). -/
def processRises (s : DHT11State) (ds : List Int) : DHT11State :=
  ds.foldl (fun st d => edgeRISE st 0 d) s

/-- The `DHT11Result` namedtuple (gpio_dht11.py line 7). -/
structure DHT11Result where
  error_code : Nat
  temperature : Nat
  humidity : Nat

/-- The value built by `DHT11.__anext__` (gpio_dht11.py lines 174-176):
`DHT11Result(error_code=self._error, temperature=self.temperature,
humidity=self.humidity)`.  The awaited `read()` only drives the GPIO
line and watchdog; it does not modify the decode state. -/
def anextResult (s : DHT11State) : DHT11Result :=
  { error_code := s.error, temperature := s.temperature,
    humidity := s.humidity }

/-- `DHT11Result.is_valid` (gpio_dht11.py lines 15-16). -/
def resultIsValid (r : DHT11Result) : Bool :=
  r.error_code = ERR_NO_ERROR

/-! ### Concrete frame for claim C2: humidity 45, temperature 25,
checksum 70. -/

/-- High-pulse duration encoding one bit: `70` µs for a `1`
(`diff >= 50`), `30` µs for a `0` (`diff < 50`); both below the 200 µs
anomaly threshold. -/
def bitDiff (b : Bool) : Int := if b then 70 else 30

/-- The 8 bits of a byte, most significant first — the order in which
`_edge_RISE` accumulates them via `(accum << 1) + val`. -/
def byteBits (n : Nat) : List Bool :=
  (List.range 8).map (fun i => n.testBit (7 - i))

/-- Interleave one `(rise, fall)` event pair per bit: from the previous
falling tick `h`, a rising edge after `d` µs (encoding the bit) and a
falling edge 50 µs later.  Every in-frame falling diff is `d + 50 ≤ 120
≤ 250000`, so no reset fires mid-frame. -/
def mkFrameEvents (h : Int) : List Int → List (EdgeLevel × Int)
  | [] => []
  | d :: ds =>
    (EdgeLevel.rise, h + d) :: (EdgeLevel.fall, h + d + 50) ::
      mkFrameEvents (h + d + 50) ds

/-- Rise diffs for the 2 header bits (bit indices -2, -1). -/
def c2HeaderDiffs : List Int := [30, 30]

/-- Rise diffs encoding humidity byte 45 (bit positions 0-7). -/
def c2HumDiffs : List Int := (byteBits 45).map bitDiff

/-- Rise diffs for 8 reserved bits (positions 8-15 and 24-31). -/
def c2SkipDiffs : List Int := List.replicate 8 (30 : Int)

/-- Rise diffs encoding temperature byte 25 (bit positions 16-23). -/
def c2TempDiffs : List Int := (byteBits 25).map bitDiff

/-- Rise diffs encoding checksum byte 70 = 45 + 25 (positions 32-39). -/
def c2ChkDiffs : List Int := (byteBits 70).map bitDiff

/-- The full event sequence for claim C2: a frame-starting falling edge
at tick 300000 (diff 300000 > 250000 resets the frame), then the 42
bit-encoding `(rise, fall)` pairs, written in byte-sized segments; each
segment's starting tick is the previous segment's final falling tick
(each bit pair advances the clock by its rise diff plus 50), so the
whole is one contiguous stream. -/
def c2Events : List (EdgeLevel × Int) :=
  (EdgeLevel.fall, 300000) ::
    (mkFrameEvents 300000 c2HeaderDiffs ++
     mkFrameEvents 300160 c2HumDiffs ++
     mkFrameEvents 300960 c2SkipDiffs ++
     mkFrameEvents 301600 c2TempDiffs ++
     mkFrameEvents 302360 c2SkipDiffs ++
     mkFrameEvents 303000 c2ChkDiffs)

/-! ### Theorems about the FrameDecoder -/

/-- Folding a cons: the first event is dispatched, the rest follow. -/
lemma processEvents_cons (s : DHT11State) (k : EdgeLevel) (t : Int)
    (l : List (EdgeLevel × Int)) :
    processEvents s ((k, t) :: l)
      = processEvents (eitherEdgeCallback s k t) l := by
  simp [processEvents]

/-- Folding an appended stream processes the two halves in order. -/
lemma processEvents_append (s : DHT11State)
    (l1 l2 : List (EdgeLevel × Int)) :
    processEvents s (l1 ++ l2)
      = processEvents (processEvents s l1) l2 := by
  simp [processEvents, List.foldl_append]

/-- The frame-starting falling edge resets the decoder. -/
lemma c2_after_reset :
    eitherEdgeCallback initState .fall 300000
      = ⟨0, 0, 300000, -2, 0, 0⟩ := by
  decide

/-- The two header bits are skipped, leaving bit_index 0. -/
lemma c2_after_header :
    processEvents ⟨0, 0, 300000, -2, 0, 0⟩
        (mkFrameEvents 300000 c2HeaderDiffs)
      = ⟨0, 0, 300160, 0, 0, 0⟩ := by
  decide

/-- Bits 0-7 accumulate humidity 45. -/
lemma c2_after_humidity :
    processEvents ⟨0, 0, 300160, 0, 0, 0⟩
        (mkFrameEvents 300160 c2HumDiffs)
      = ⟨0, 45, 300960, 8, 0, 0⟩ := by
  decide

/-- Bits 8-15 are reserved and leave the accumulators alone. -/
lemma c2_after_skip1 :
    processEvents ⟨0, 45, 300960, 8, 0, 0⟩
        (mkFrameEvents 300960 c2SkipDiffs)
      = ⟨0, 45, 301600, 16, 0, 0⟩ := by
  decide

/-- Bits 16-23 accumulate temperature 25. -/
lemma c2_after_temperature :
    processEvents ⟨0, 45, 301600, 16, 0, 0⟩
        (mkFrameEvents 301600 c2TempDiffs)
      = ⟨25, 45, 302360, 24, 0, 0⟩ := by
  decide

/-- Bits 24-31 are reserved and leave the accumulators alone. -/
lemma c2_after_skip2 :
    processEvents ⟨25, 45, 302360, 24, 0, 0⟩
        (mkFrameEvents 302360 c2SkipDiffs)
      = ⟨25, 45, 303000, 32, 0, 0⟩ := by
  decide

/-- Bits 32-39 accumulate checksum 70; at bit 39 the comparison
`(45 + 25) & 255 == 70` succeeds, so the error stays NoError and the
frame completes with bit_index 40. -/
lemma c2_after_checksum :
    processEvents ⟨25, 45, 303000, 32, 0, 0⟩
        (mkFrameEvents 303000 c2ChkDiffs)
      = ⟨25, 45, 303760, 40, 70, 0⟩ := by
  decide

/-- Claim C2: feeding the frame-starting falling edge followed by
correctly-timed edge pairs encoding humidity 45, temperature 25 and
checksum 70 (every rising diff 30 or 70 < 200, every in-frame falling
diff ≤ 120 ≤ 250000) leaves the decoder with error NoError, humidity
45, temperature 25 (and a complete frame, bit_index 40). -/
theorem C2_decode_known_frame :
    (processEvents initState c2Events).error = ERR_NO_ERROR ∧
    (processEvents initState c2Events).humidity = 45 ∧
    (processEvents initState c2Events).temperature = 25 ∧
    (processEvents initState c2Events).bit = 40 := by
  have h : processEvents initState c2Events = ⟨25, 45, 303760, 40, 70, 0⟩ := by
    unfold c2Events
    rw [processEvents_cons, c2_after_reset,
        processEvents_append, processEvents_append, processEvents_append,
        processEvents_append, processEvents_append,
        c2_after_header, c2_after_humidity, c2_after_skip1,
        c2_after_temperature, c2_after_skip2, c2_after_checksum]
  rw [h]
  exact ⟨rfl, rfl, rfl, rfl⟩

/-- Claim C1: the code never assigns `ERR_MISSING_DATA` to
`self._error`.  A read finalized right after a frame reset (bit_index
-2 < 40, no checksum error recorded) returns a `DHT11Result` whose
`error_code` is `ERR_NO_ERROR`, not the `ERR_MISSING_DATA` the claim
requires — and `is_valid()` even accepts the incomplete frame. -/
theorem C1_missing_data_never_set :
    (eitherEdgeCallback initState .fall 300000).bit < 40 ∧
    (eitherEdgeCallback initState .fall 300000).error ≠ ERR_CRC ∧
    (anextResult (eitherEdgeCallback initState .fall 300000)).error_code
      = ERR_NO_ERROR ∧
    (anextResult (eitherEdgeCallback initState .fall 300000)).error_code
      ≠ ERR_MISSING_DATA ∧
    resultIsValid (anextResult (eitherEdgeCallback initState .fall 300000))
      = true := by
  decide

/-- Claim C3 counterexample: a qualifying falling-edge frame reset
(diff 250001 > 250000) applied to a state whose error is
ChecksumMismatch leaves the error field equal to ChecksumMismatch, not
NoError — `_edge_FALL` never touches `self._error`. -/
theorem C3_reset_keeps_error_counterexample :
    (edgeFALL { initState with error := ERR_CRC } 300000 250001).error
      = ERR_CRC ∧ ERR_CRC ≠ ERR_NO_ERROR := by
  decide

/-- Claim C3 (amended): a qualifying falling-edge frame reset
(diff > 250000) stores the falling tick, resets bit_index to -2 and
zeroes the three accumulators, but leaves the error field unchanged
(whatever error was recorded before the reset survives it; error is
cleared to NoError only when a humidity or temperature bit is later
accumulated). -/
theorem C3_reset_state_amended (s : DHT11State) (tick diff : Int)
    (h : 250000 < diff) :
    edgeFALL s tick diff =
      { s with high_tick := tick, bit := -2, checksum := 0,
               temperature := 0, humidity := 0 } := by
  simp only [edgeFALL]
  rw [if_neg (by omega : ¬ diff ≤ 250000)]

/-- Claim C3 witness: the amended theorem at a state carrying a
checksum error, falling tick 300000, diff 250001. -/
theorem C3_reset_state_amended_witness :
    ((250000 : Int) < 250001) ∧
    (edgeFALL { initState with error := ERR_CRC } 300000 250001 =
      { ({ initState with error := ERR_CRC } : DHT11State) with
          high_tick := 300000, bit := -2, checksum := 0,
          temperature := 0, humidity := 0 }) :=
  ⟨by decide,
   C3_reset_state_amended { initState with error := ERR_CRC }
     300000 250001 (by decide)⟩

/-! ### Rising-edge bit_index behaviour (claims C5, C6, C7) -/

/-- In every dispatch branch the trailing `self._bit += 1` fires,
except on the checksum-mismatch early return at bit 39, which leaves
`_bit` at 39 and records `ERR_CRC`. -/
lemma riseDispatch_bit (s : DHT11State) (val : Nat) (h2 : s.bit ≤ 39) :
    (riseDispatch s val).bit = s.bit + 1 ∨
    (s.bit = 39 ∧ (riseDispatch s val).bit = 39 ∧
      (riseDispatch s val).error = ERR_CRC) := by
  simp only [riseDispatch]
  rw [if_neg (by omega : ¬ 40 ≤ s.bit)]
  by_cases h32 : 32 ≤ s.bit
  · rw [if_pos h32]
    by_cases h39 : s.bit = 39
    · rw [if_pos h39]
      by_cases hck : ¬ ((s.humidity + s.temperature) &&& 255
          = (s.checksum <<< 1) + val)
      · rw [if_pos hck]
        exact Or.inr ⟨h39, h39, rfl⟩
      · rw [if_neg hck]
        exact Or.inl rfl
    · rw [if_neg h39]
      exact Or.inl rfl
  · rw [if_neg h32]
    by_cases hT : 16 ≤ s.bit ∧ s.bit < 24
    · rw [if_pos hT]; exact Or.inl rfl
    · rw [if_neg hT]
      by_cases hH : 0 ≤ s.bit ∧ s.bit < 8
      · rw [if_pos hH]; exact Or.inl rfl
      · rw [if_neg hH]; exact Or.inl rfl

/-- Claim C5 counterexample: with bit_index 39 (in the claimed -2..39
range) and accumulators all zero, a rising edge with diff 70 shifts a
1 into the checksum, the comparison `0 & 255 == 1` fails, and the
early return leaves bit_index at 39 instead of incrementing it to
39 + 1. -/
theorem C5_bit39_counterexample :
    (edgeRISE { initState with bit := 39 } 0 70).bit ≠ 39 + 1 := by
  decide

/-- Claim C5 (amended): for every rising edge with pre-state bit_index
in -2..39, the post-state bit_index is the pre-state's plus exactly 1,
except when bit_index is 39 and the checksum comparison fails, in which
case the early return leaves bit_index at 39 and sets ERR_CRC. -/
theorem C5_bit_increment_amended (s : DHT11State) (tick diff : Int)
    (h1 : -2 ≤ s.bit) (h2 : s.bit ≤ 39) :
    (edgeRISE s tick diff).bit = s.bit + 1 ∨
    (s.bit = 39 ∧ (edgeRISE s tick diff).bit = 39 ∧
      (edgeRISE s tick diff).error = ERR_CRC) := by
  unfold edgeRISE
  by_cases hf : 200 ≤ diff
  · rw [if_pos hf]
    exact riseDispatch_bit { s with checksum := 256 } _ h2
  · rw [if_neg hf]
    exact riseDispatch_bit s _ h2

/-- Claim C5 witness: the amended theorem at bit_index 0, diff 30 (the
normal increment branch). -/
theorem C5_bit_increment_amended_witness :
    (-2 ≤ ({ initState with bit := 0 } : DHT11State).bit) ∧
    (({ initState with bit := 0 } : DHT11State).bit ≤ 39) ∧
    ((edgeRISE { initState with bit := 0 } 0 30).bit
        = ({ initState with bit := 0 } : DHT11State).bit + 1 ∨
     (({ initState with bit := 0 } : DHT11State).bit = 39 ∧
      (edgeRISE { initState with bit := 0 } 0 30).bit = 39 ∧
      (edgeRISE { initState with bit := 0 } 0 30).error = ERR_CRC)) :=
  ⟨by decide, by decide,
   C5_bit_increment_amended { initState with bit := 0 } 0 30
     (by decide) (by decide)⟩

/-- The message-complete branch: `self._bit = 40` followed by the
unconditional `self._bit += 1`. -/
lemma riseDispatch_complete (s : DHT11State) (val : Nat)
    (h : 40 ≤ s.bit) :
    riseDispatch s val = { s with bit := 40 + 1 } := by
  simp only [riseDispatch]
  rw [if_pos h]

/-- Claim C6 counterexample: from the post-construction state
(bit_index 40) a rising edge with diff 200 leaves bit_index at 41, not
40, and overwrites checksum_accum with 256 — neither is "unchanged"
as the claim requires. -/
theorem C6_complete_frame_counterexample :
    (edgeRISE initState 0 200).bit ≠ 40 ∧
    (edgeRISE initState 0 200).checksum ≠ initState.checksum := by
  decide

/-- Claim C6 (amended): a rising edge processed while bit_index ≥ 40
clamps bit_index to 40 and then the unconditional increment makes it
41; temperature, humidity, error and the stored high tick are
unchanged, and checksum is unchanged unless diff ≥ 200, in which case
the bad-bit guard has already overwritten it with 256. -/
theorem C6_complete_frame_amended (s : DHT11State) (tick diff : Int)
    (h : 40 ≤ s.bit) :
    (edgeRISE s tick diff).bit = 41 ∧
    (edgeRISE s tick diff).temperature = s.temperature ∧
    (edgeRISE s tick diff).humidity = s.humidity ∧
    (edgeRISE s tick diff).error = s.error ∧
    (edgeRISE s tick diff).high_tick = s.high_tick ∧
    (edgeRISE s tick diff).checksum
      = (if 200 ≤ diff then 256 else s.checksum) := by
  unfold edgeRISE
  by_cases hf : 200 ≤ diff
  · simp only [if_pos hf]
    rw [riseDispatch_complete { s with checksum := 256 } _ (by exact h)]
    exact ⟨by norm_num, rfl, rfl, rfl, rfl, rfl⟩
  · simp only [if_neg hf]
    rw [riseDispatch_complete s _ h]
    exact ⟨by norm_num, rfl, rfl, rfl, rfl, rfl⟩

/-- Claim C6 witness: the amended theorem at the post-construction
state with diff 200. -/
theorem C6_complete_frame_amended_witness :
    (40 ≤ initState.bit) ∧
    ((edgeRISE initState 0 200).bit = 41 ∧
     (edgeRISE initState 0 200).temperature = initState.temperature ∧
     (edgeRISE initState 0 200).humidity = initState.humidity ∧
     (edgeRISE initState 0 200).error = initState.error ∧
     (edgeRISE initState 0 200).high_tick = initState.high_tick ∧
     (edgeRISE initState 0 200).checksum
       = (if (200 : Int) ≤ 200 then 256 else initState.checksum)) :=
  ⟨by decide, C6_complete_frame_amended initState 0 200 (by decide)⟩

/-- Inside the checksum window with checksum_accum already ≥ 256, a
rising edge keeps checksum_accum ≥ 256 while advancing bit_index, and
at bit 39 the comparison `(humidity + temperature) & 255 == checksum`
cannot succeed (the left side is ≤ 255), so ERR_CRC is recorded. -/
lemma riseDispatch_checksum_window (s : DHT11State) (val : Nat)
    (h1 : 32 ≤ s.bit) (h2 : s.bit ≤ 39) (hc : 256 ≤ s.checksum) :
    (s.bit ≤ 38 →
      (riseDispatch s val).bit = s.bit + 1 ∧
      256 ≤ (riseDispatch s val).checksum) ∧
    (s.bit = 39 → (riseDispatch s val).error = ERR_CRC) := by
  have hs : s.checksum <<< 1 = s.checksum * 2 := by
    rw [Nat.shiftLeft_eq, pow_one]
  have hcc : 512 ≤ (s.checksum <<< 1) + val := by omega
  have hand : (s.humidity + s.temperature) &&& 255 ≤ 255 :=
    Nat.and_le_right
  simp only [riseDispatch]
  rw [if_neg (by omega : ¬ 40 ≤ s.bit), if_pos h1]
  constructor
  · intro h38
    rw [if_neg (by omega : ¬ s.bit = 39)]
    refine ⟨rfl, ?_⟩
    show 256 ≤ (s.checksum <<< 1) + val
    omega
  · intro h39
    rw [if_pos h39,
        if_pos (by omega :
          ¬ ((s.humidity + s.temperature) &&& 255
              = (s.checksum <<< 1) + val))]

/-- Same statement for a full `_edge_RISE` step: the checksum stays (or
is forced) out of range whenever it already is ≥ 256, or the incoming
diff is ≥ 200 (the force-bad-checksum guard). -/
lemma edgeRISE_in_window (s : DHT11State) (tick d : Int)
    (h1 : 32 ≤ s.bit) (h2 : s.bit ≤ 39)
    (hcf : 256 ≤ s.checksum ∨ 200 ≤ d) :
    (s.bit ≤ 38 →
      (edgeRISE s tick d).bit = s.bit + 1 ∧
      256 ≤ (edgeRISE s tick d).checksum) ∧
    (s.bit = 39 → (edgeRISE s tick d).error = ERR_CRC) := by
  unfold edgeRISE
  by_cases hf : 200 ≤ d
  · simp only [if_pos hf]
    exact riseDispatch_checksum_window { s with checksum := 256 } _
      h1 h2 (le_refl 256)
  · simp only [if_neg hf]
    exact riseDispatch_checksum_window s _ h1 h2 (hcf.resolve_right hf)

/-- Folding further rising edges from inside the checksum window with
an out-of-range checksum always ends in ERR_CRC once the bit-39
comparison runs (the list supplies exactly the edges up to and
including bit 39). -/
lemma processRises_crc (ds : List Int) (s : DHT11State)
    (h1 : 32 ≤ s.bit) (h2 : s.bit ≤ 39) (hc : 256 ≤ s.checksum)
    (hlen : (ds.length : Int) = 40 - s.bit) :
    (processRises s ds).error = ERR_CRC := by
  induction ds generalizing s with
  | nil =>
    exfalso
    simp only [List.length_nil, Nat.cast_zero] at hlen
    omega
  | cons d ds ih =>
    have hlen' : (ds.length : Int) = 40 - (s.bit + 1) := by
      simp only [List.length_cons] at hlen
      push_cast at hlen
      omega
    by_cases h39 : s.bit = 39
    · have h0 : ds.length = 0 := by omega
      have hds : ds = [] := List.length_eq_zero.mp h0
      subst hds
      simpa [processRises] using
        (edgeRISE_in_window s 0 d h1 h2 (Or.inl hc)).2 h39
    · obtain ⟨hbit, hchk⟩ :=
        (edgeRISE_in_window s 0 d h1 h2 (Or.inl hc)).1 (by omega)
      have hstep : processRises s (d :: ds)
          = processRises (edgeRISE s 0 d) ds := by
        simp [processRises]
      rw [hstep]
      exact ih (edgeRISE s 0 d) (by rw [hbit]; omega)
        (by rw [hbit]; omega) hchk (by rw [hbit]; omega)

/-- Claim C7: a rising edge with diff ≥ 200 while bit_index is in the
checksum window (32..39) forces the checksum out of range (256, then
shifted), so after the remaining rising edges of the frame reach the
bit-39 completion check, the comparison fails and ERR_CRC is recorded
— for every state (any actual bit values, including ones whose true
checksum would match) and every choice of the later diffs. -/
theorem C7_long_pulse_forces_crc (s : DHT11State) (tick d : Int)
    (ds : List Int)
    (h1 : 32 ≤ s.bit) (h2 : s.bit ≤ 39) (hd : 200 ≤ d)
    (hlen : (ds.length : Int) = 39 - s.bit) :
    (processRises (edgeRISE s tick d) ds).error = ERR_CRC := by
  by_cases h39 : s.bit = 39
  · have h0 : ds.length = 0 := by omega
    have hds : ds = [] := List.length_eq_zero.mp h0
    subst hds
    simpa [processRises] using
      (edgeRISE_in_window s tick d h1 h2 (Or.inr hd)).2 h39
  · obtain ⟨hbit, hchk⟩ :=
      (edgeRISE_in_window s tick d h1 h2 (Or.inr hd)).1 (by omega)
    exact processRises_crc ds (edgeRISE s tick d)
      (by rw [hbit]; omega) (by rw [hbit]; omega) hchk
      (by rw [hbit]; omega)

/-- Claim C7 witness: the theorem at a state whose true checksum would
match (all accumulators zero), bit_index 39, one anomalous 200 µs
pulse, no further edges needed. -/
theorem C7_long_pulse_forces_crc_witness :
    (32 ≤ ({ initState with bit := 39 } : DHT11State).bit) ∧
    (({ initState with bit := 39 } : DHT11State).bit ≤ 39) ∧
    ((200 : Int) ≤ 200) ∧
    ((([] : List Int).length : Int)
        = 39 - ({ initState with bit := 39 } : DHT11State).bit) ∧
    (processRises (edgeRISE { initState with bit := 39 } 0 200) []).error
      = ERR_CRC :=
  ⟨by decide, by decide, by decide, by decide,
   C7_long_pulse_forces_crc { initState with bit := 39 } 0 200 []
     (by decide) (by decide) (by decide) (by decide)⟩
